import Mathlib

/-!
Verification of `litgpt/adapter_v2.py` (LLaMA-Adapter V2 port for LitGPT).

The file shallowly embeds the module constructors, the parameter-marking
function, the forward pass of the `GPT` wrapper class and the checkpoint
key-remapping logic of `adapter_v2.py`.  Tensors are modelled as explicit
shapes with flat rational data; the external base-transformer forward
(attention, rotary embeddings, normalisation) is abstracted as injected
functions, exactly as the source file treats it (it is inherited from a
base module that is not part of this slice).
-/

namespace AdapterV2

/-- A `torch.nn.Parameter`: a tensor (shape + flat row-major data) together
with its `requires_grad` flag. -/
structure PTensor where
  shape : List Nat
  data : List ℚ
  requires_grad : Bool
deriving DecidableEq, Repr

/-- A plain tensor as stored in a checkpoint state dict: shape + flat
row-major data. -/
structure STensor where
  shape : List Nat
  data : List ℚ
deriving DecidableEq, Repr

/-- `torch.zeros(shape)` wrapped in `torch.nn.Parameter` with the given
`requires_grad` flag. -/
def ptZeros (shape : List Nat) (rg : Bool) : PTensor :=
  { shape := shape, data := List.replicate shape.prod 0, requires_grad := rg }

/-- `torch.ones(shape)` wrapped in `torch.nn.Parameter` with the given
`requires_grad` flag. -/
def ptOnes (shape : List Nat) (rg : Bool) : PTensor :=
  { shape := shape, data := List.replicate shape.prod 1, requires_grad := rg }

/-- `torch.nn.Linear(in_features, out_features, bias)`: weight matrix of
`out_features` rows and an optional bias vector.  The numeric weight values
are produced by the framework's random initialisation (external to this
slice), so constructors receive them injected. -/
structure LinearT where
  in_features : Nat
  out_features : Nat
  weight : List (List ℚ)
  biasv : Option (List ℚ)
deriving DecidableEq, Repr

/-- Dot product of two rational vectors (truncating to the shorter). -/
def dotQ (a b : List ℚ) : ℚ :=
  (List.zipWith (· * ·) a b).sum

/-- The forward map of `torch.nn.Linear` on a single feature vector:
`y_i = w_i · x + b_i` (affine map; the framework's linear layer). -/
def linearForward (lin : LinearT) (x : List ℚ) : List ℚ :=
  let y := lin.weight.map (fun r => dotQ r x)
  match lin.biasv with
  | some b => List.zipWith (· + ·) y b
  | none => y

/-- The `AdapterV2Linear` module: a wrapped linear layer plus the
per-output-feature `adapter_bias` and `adapter_scale` parameters. -/
structure AdapterV2Linear where
  linear : LinearT
  adapter_bias : PTensor
  adapter_scale : PTensor
deriving DecidableEq, Repr

/-- `AdapterV2Linear.__init__`: creates the wrapped `torch.nn.Linear`
(via the injected framework initialiser `linInit`), an `adapter_bias`
parameter of zeros with `requires_grad=False`, and an `adapter_scale`
parameter of ones with `requires_grad=False`. -/
def mkAdapterV2Linear (inF outF : Nat) (bias : Bool)
    (linInit : Nat → Nat → Bool → LinearT) : AdapterV2Linear :=
  { linear := linInit inF outF bias
    adapter_bias := ptZeros [outF] false
    adapter_scale := ptOnes [outF] false }

/-- `AdapterV2Linear.forward`: `adapter_scale * (self.linear(x) + adapter_bias)`,
with `*` and `+` broadcasting elementwise over the output-feature dimension. -/
def adapterV2Forward (m : AdapterV2Linear) (x : List ℚ) : List ℚ :=
  List.zipWith (· * ·) m.adapter_scale.data
    (List.zipWith (· + ·) (linearForward m.linear x) m.adapter_bias.data)

/-- `AdapterV2Linear.reset_parameters`: zeroes `adapter_bias` and fills
`adapter_scale` with ones, in place (shapes and flags preserved). -/
def resetParameters (m : AdapterV2Linear) : AdapterV2Linear :=
  { m with
    adapter_bias := { m.adapter_bias with data := List.replicate m.adapter_bias.data.length 0 }
    adapter_scale := { m.adapter_scale with data := List.replicate m.adapter_scale.data.length 1 } }

/-- Boolean test that the list `s` starts with the list `t`. -/
def beginsWith : List Char → List Char → Bool
  | _, [] => true
  | [], _ :: _ => false
  | c :: s, d :: t => c == d && beginsWith s t

/-- Boolean test for Python's `t in s` on strings (as character lists):
`t` occurs contiguously inside `s`. -/
def containsSeq : List Char → List Char → Bool
  | [], t => t.isEmpty
  | c :: s, t => beginsWith (c :: s) t || containsSeq s t

/-- The tuple `adapter_substrings` from `adapter_filter`. -/
def adapterSubstrings : List String :=
  ["adapter_wte", "gating_factor", "adapter_scale", "adapter_bias", "norm_1", "norm_2", "ln_f"]

/-- `adapter_filter(key, value)`: true when any adapter substring occurs in
`key` (the `value` argument is accepted and ignored, as in the source). -/
def adapter_filter (key : String) (_value : PTensor) : Bool :=
  adapterSubstrings.any (fun s => containsSeq key.data s.data)

/-- `mark_only_adapter_v2_as_trainable(model)`: iterates the model's named
parameters and sets `requires_grad = adapter_filter(name, param)` on each.
The `named_parameters()` traversal is framework machinery; the model is
represented by its named-parameter list. -/
def mark_only_adapter_v2_as_trainable (params : List (String × PTensor)) :
    List (String × PTensor) :=
  params.map (fun np => (np.1, { np.2 with requires_grad := adapter_filter np.1 np.2 }))

/-- The `mlp_class_name` field of the configuration; `Config.mlp_class`
resolves it by name to one of the MLP classes of this file. -/
inductive MLPClassName where
  | gptNeoxMLPName
  | llamaMLPName
  | gemmaMLPName
  | llamaMoEName
deriving DecidableEq, Repr

/-- The configuration fields of `litgpt.adapter.Config` that this file
reads.  Numeric hyper-parameters are natural numbers; `norm_eps` and
`final_logit_softcapping` are rationals standing for the source floats. -/
structure Config where
  padded_vocab_size : Option Nat
  n_embd : Nat
  n_layer : Nat
  n_head : Nat
  n_query_groups : Nat
  head_size : Nat
  block_size : Nat
  intermediate_size : Nat
  n_expert : Nat
  adapter_start_layer : Nat
  adapter_prompt_length : Nat
  bias : Bool
  attn_bias : Bool
  lm_head_bias : Bool
  shared_attention_norm : Bool
  parallel_residual : Bool
  post_attention_norm : Bool
  post_mlp_norm : Bool
  scale_embeddings : Bool
  norm_eps : ℚ
  sliding_window_size : Option Nat
  sliding_window_layer_stride : Nat
  final_logit_softcapping : Option ℚ
  mlp_class_name : MLPClassName
deriving DecidableEq, Repr

/-- A linear-projection slot of the model: either a bare `torch.nn.Linear`
or an `AdapterV2Linear` wrapper.  The constructors of this file decide
which of the two each slot receives. -/
inductive LinearLike where
  | bare (m : LinearT)
  | adapterV2 (m : AdapterV2Linear)
deriving DecidableEq, Repr

/-- Whether a linear-projection slot carries the AdapterV2 wrapper. -/
def isAdapterV2 : LinearLike → Bool
  | .bare _ => false
  | .adapterV2 _ => true

/-- Apply a linear-projection slot to a feature vector (Python dynamic
dispatch on the module's class). -/
def llApply (l : LinearLike) (x : List ℚ) : List ℚ :=
  match l with
  | .bare lin => linearForward lin x
  | .adapterV2 m => adapterV2Forward m x

/-- `torch.nn.Embedding(num_embeddings, embedding_dim)`; the randomly
initialised weight table is external framework state, so only the
dimensions are recorded. -/
structure EmbeddingT where
  num_embeddings : Nat
  embedding_dim : Nat
deriving DecidableEq, Repr

/-- `config.norm_class(n_embd, eps)` — the norm layers come from outside
this slice; only their construction arguments are recorded. -/
structure NormT where
  dim : Nat
  eps : ℚ
deriving DecidableEq, Repr

/-- The adapter-prefix attributes attached to a `CausalSelfAttention`
block at or above `adapter_start_layer`. -/
structure AdapterAttrs where
  adapter_wte : EmbeddingT
  gating_factor : PTensor
  adapter_kv_cache : Option (STensor × STensor)
deriving DecidableEq, Repr

/-- The `CausalSelfAttention` module of `adapter_v2.py`. -/
structure CausalSelfAttention where
  qkv : LinearLike
  proj : LinearLike
  kv_cache : Option STensor
  adapter : Option AdapterAttrs
  block_idx : Nat
  apply_sliding_window_attention : Bool
  config : Config
deriving DecidableEq, Repr

/-- `CausalSelfAttention.__init__`: builds `qkv` and `proj` as
`AdapterV2Linear`s, disables the kv cache, and attaches the adapter
prefix attributes (`adapter_wte`, zero-initialised `gating_factor` of
shape `(1, 1, n_head, 1)`, empty `adapter_kv_cache`) exactly when
`block_idx >= config.adapter_start_layer`. -/
def mkCausalSelfAttention (cfg : Config) (block_idx : Nat)
    (linInit : Nat → Nat → Bool → LinearT) : CausalSelfAttention :=
  let shape := (cfg.n_head + 2 * cfg.n_query_groups) * cfg.head_size
  { qkv := .adapterV2 (mkAdapterV2Linear cfg.n_embd shape (cfg.bias || cfg.attn_bias) linInit)
    proj := .adapterV2 (mkAdapterV2Linear (cfg.head_size * cfg.n_head) cfg.n_embd cfg.bias linInit)
    kv_cache := none
    adapter :=
      if cfg.adapter_start_layer ≤ block_idx then
        some { adapter_wte := { num_embeddings := cfg.adapter_prompt_length, embedding_dim := cfg.n_embd }
               gating_factor := ptZeros [1, 1, cfg.n_head, 1] true
               adapter_kv_cache := none }
      else none
    block_idx := block_idx
    apply_sliding_window_attention :=
      cfg.sliding_window_size.isSome && block_idx % cfg.sliding_window_layer_stride == 0
    config := cfg }

/-- The field layout shared by `LLaMAMLP` and its subclass `GemmaMLP`. -/
structure LLaMAMLPFields where
  fc_1 : LinearLike
  fc_2 : LinearLike
  proj : LinearLike
deriving DecidableEq, Repr

/-- The MLP module selected by `config.mlp_class`; `LLaMAMoE.experts` is a
`ModuleList` of `LLaMAMLP`s. -/
inductive MLPModule where
  | gptNeoxMLP (fc proj : LinearLike)
  | llamaMLP (fields : LLaMAMLPFields)
  | gemmaMLP (fields : LLaMAMLPFields)
  | llamaMoE (gate : LinearLike) (experts : List LLaMAMLPFields)
deriving DecidableEq, Repr

/-- `LLaMAMLP.__init__` (also used by `GemmaMLP`, which only overrides
`forward`): the three projections as `AdapterV2Linear`s. -/
def mkLLaMAMLPFields (cfg : Config) (linInit : Nat → Nat → Bool → LinearT) : LLaMAMLPFields :=
  { fc_1 := .adapterV2 (mkAdapterV2Linear cfg.n_embd cfg.intermediate_size cfg.bias linInit)
    fc_2 := .adapterV2 (mkAdapterV2Linear cfg.n_embd cfg.intermediate_size cfg.bias linInit)
    proj := .adapterV2 (mkAdapterV2Linear cfg.intermediate_size cfg.n_embd cfg.bias linInit) }

/-- Construct the MLP for a block according to `config.mlp_class`. -/
def mkMLP (cfg : Config) (linInit : Nat → Nat → Bool → LinearT) : MLPModule :=
  match cfg.mlp_class_name with
  | .gptNeoxMLPName =>
      .gptNeoxMLP
        (.adapterV2 (mkAdapterV2Linear cfg.n_embd cfg.intermediate_size cfg.bias linInit))
        (.adapterV2 (mkAdapterV2Linear cfg.intermediate_size cfg.n_embd cfg.bias linInit))
  | .llamaMLPName => .llamaMLP (mkLLaMAMLPFields cfg linInit)
  | .gemmaMLPName => .gemmaMLP (mkLLaMAMLPFields cfg linInit)
  | .llamaMoEName =>
      .llamaMoE (.adapterV2 (mkAdapterV2Linear cfg.n_embd cfg.n_expert false linInit))
        (List.replicate cfg.n_expert (mkLLaMAMLPFields cfg linInit))

/-- Errors raised while constructing modules: the
`NotImplementedError` of `Block.__init__` and the failed assert of
`GPT.__init__`. -/
inductive BuildError where
  | notImplementedError
  | assertionError
deriving DecidableEq, Repr

/-- The `Block` module of `adapter_v2.py`. -/
structure Block where
  norm_1 : NormT
  attn : CausalSelfAttention
  post_attention_norm : Option NormT
  norm_2 : Option NormT
  mlp : MLPModule
  post_mlp_norm : Option NormT
  config : Config
deriving DecidableEq, Repr

/-- `Block.__init__`: rejects non-parallel residual combined with a shared
attention norm, then builds the norms, the AdapterV2 attention and the MLP.
`post_attention_norm`/`post_mlp_norm` are `none` when the source installs
`nn.Identity()`. -/
def mkBlock (cfg : Config) (block_idx : Nat)
    (linInit : Nat → Nat → Bool → LinearT) : Except BuildError Block :=
  if ¬cfg.parallel_residual ∧ cfg.shared_attention_norm then
    .error .notImplementedError
  else
    .ok { norm_1 := { dim := cfg.n_embd, eps := cfg.norm_eps }
          attn := mkCausalSelfAttention cfg block_idx linInit
          post_attention_norm :=
            if cfg.post_attention_norm then some { dim := cfg.n_embd, eps := cfg.norm_eps } else none
          norm_2 :=
            if cfg.shared_attention_norm then none else some { dim := cfg.n_embd, eps := cfg.norm_eps }
          mlp := mkMLP cfg linInit
          post_mlp_norm :=
            if cfg.post_mlp_norm then some { dim := cfg.n_embd, eps := cfg.norm_eps } else none
          config := cfg }

/-- The `transformer` ModuleDict of the GPT wrapper. -/
structure Transformer where
  wte : EmbeddingT
  h : List Block
  ln_f : NormT
deriving DecidableEq, Repr

/-- The `GPT` wrapper module of `adapter_v2.py` (structural state; the
buffers and forward semantics inherited from the external base model are
supplied separately to `gptForward`). -/
structure GPT where
  config : Config
  lm_head : LinearLike
  transformer : Transformer
  max_seq_length : Nat
  mask_cache : Option STensor
deriving DecidableEq, Repr

/-- `GPT.__init__`: asserts `padded_vocab_size is not None`, wraps
`lm_head` in `AdapterV2Linear`, builds the embedding, the blocks and the
final norm, sets `max_seq_length` to `block_size` and clears
`mask_cache`. -/
def mkGPT (cfg : Config) (linInit : Nat → Nat → Bool → LinearT) : Except BuildError GPT :=
  match cfg.padded_vocab_size with
  | none => .error .assertionError
  | some pv => do
    let blocks ← (List.range cfg.n_layer).mapM (fun i => mkBlock cfg i linInit)
    .ok { config := cfg
          lm_head := .adapterV2 (mkAdapterV2Linear cfg.n_embd pv cfg.lm_head_bias linInit)
          transformer := { wte := { num_embeddings := pv, embedding_dim := cfg.n_embd }
                           h := blocks
                           ln_f := { dim := cfg.n_embd, eps := cfg.norm_eps } }
          max_seq_length := cfg.block_size
          mask_cache := none }

/-- The linear-projection slots of an MLP module. -/
def mlpSlots : MLPModule → List LinearLike
  | .gptNeoxMLP fc proj => [fc, proj]
  | .llamaMLP f => [f.fc_1, f.fc_2, f.proj]
  | .gemmaMLP f => [f.fc_1, f.fc_2, f.proj]
  | .llamaMoE gate experts =>
      gate :: (experts.map (fun f => [f.fc_1, f.fc_2, f.proj])).flatten

/-- All linear-projection slots of a constructed GPT model: the `lm_head`,
each block's attention `qkv` and `proj`, and each block's MLP projections. -/
def gptLinearSlots (g : GPT) : List LinearLike :=
  g.lm_head :: g.transformer.h.flatMap (fun b => [b.attn.qkv, b.attn.proj] ++ mlpSlots b.mlp)

/-- The linear-projection slots of `mkGPT cfg linInit` when construction
succeeds, `[]` when it fails. -/
def gptOkSlots (cfg : Config) (linInit : Nat → Nat → Bool → LinearT) : List LinearLike :=
  match mkGPT cfg linInit with
  | .ok g => gptLinearSlots g
  | .error _ => []

/-- A hidden-state tensor for a single sequence: one feature vector per
position (the source's `(b, t, n_embd)` tensor at batch size one, with the
position dimension — the source's `dim=1` — as the outer list). -/
abbrev HState := List (List ℚ)

/-- Modelled from the spec: the parts of the forward pass that
`adapter_v2.py` inherits from the external base model — the `cos`/`sin`
rope buffers, the token-embedding lookup `transformer.wte`, the per-block
`Block.forward`, the final-norm application `transformer.ln_f`, the float
scalar `n_embd ** 0.5`, and `torch.tanh` — none of which is defined in
this slice.  They are injected as explicit data and functions. -/
structure ExternSems where
  cos : List (List ℚ)
  sin : List (List ℚ)
  embed : Nat → List ℚ
  blockFwds : List (HState → List (List ℚ) → List (List ℚ) → Option STensor → Option (List Nat) → HState)
  lnf : HState → HState
  embedScale : ℚ
  tanh : ℚ → ℚ

/-- The exceptions `GPT.forward` can raise: the `ValueError` for an
over-long sequence and the `TypeError` for a missing mask cache (the
message strings carry no further information). -/
inductive FwdError where
  | valueError
  | typeError
deriving DecidableEq, Repr

/-- The result of `GPT.forward`: a single logits tensor, or the list of
per-chunk logits returned when `lm_head_chunk_size > 0`. -/
inductive FwdOut where
  | single (x : HState)
  | chunks (xs : List HState)
deriving DecidableEq, Repr

/-- `t.index_select(0, input_pos)` on a two-dimensional buffer stored as a
list of rows. -/
def rowSelect (rows : List (List ℚ)) (ip : List Nat) : List (List ℚ) :=
  ip.map (fun j => rows.getD j [])

/-- `t.index_select(dim, ip)` on a flat-data tensor: rows along dimension
`dim` are re-gathered according to `ip`. -/
def indexSelect (dim : Nat) (t : STensor) (ip : List Nat) : STensor :=
  let outer := (t.shape.take dim).prod
  let sd := t.shape.getD dim 0
  let inner := (t.shape.drop (dim + 1)).prod
  { shape := t.shape.set dim ip.length
    data :=
      (List.range outer).flatMap (fun o =>
        ip.flatMap (fun j =>
          (List.range inner).map (fun k => t.data.getD ((o * sd + j) * inner + k) 0))) }

/-- `x.split(c, dim=1)` along the position dimension: consecutive chunks
of `c` positions, the last possibly shorter.  `torch.split` rejects a
non-positive split size; the source only reaches this call under
`lm_head_chunk_size > 0`, so the `0` case is an unreachable fallback. -/
def tsplit : Nat → List α → List (List α)
  | _, [] => []
  | 0, l => [l]
  | c + 1, x :: xs =>
    ((x :: xs).take (c + 1)) :: tsplit (c + 1) ((x :: xs).drop (c + 1))
termination_by _ l => l.length
decreasing_by simp [List.length_drop]; omega

/-- The final-logit softcapping step `torch.tanh(x / c) * c`, applied
elementwise (with the injected `tanh` semantics). -/
def softcapT (tanh : ℚ → ℚ) (cap : ℚ) (x : HState) : HState :=
  x.map (List.map (fun v => tanh (v / cap) * cap))

/-- `GPT.forward(idx, input_pos, lm_head_chunk_size)` for a single
sequence `idx` of token ids: the length check, the kv-cache branch with
its mask-cache check, embedding (with optional scaling), the block
pipeline, the final norm, and the (optionally chunked, optionally
softcapped) `lm_head`. -/
def gptForward (g : GPT) (ext : ExternSems) (idx : List Nat)
    (input_pos : Option (List Nat)) (lm_head_chunk_size : Nat) : Except FwdError FwdOut :=
  let T := idx.length
  if g.max_seq_length < T then
    .error .valueError
  else
    let step : List (List ℚ) → List (List ℚ) → Option STensor → Except FwdError FwdOut :=
      fun cos sin mask =>
        let x0 := idx.map ext.embed
        let x1 := if g.config.scale_embeddings then x0.map (List.map (· * ext.embedScale)) else x0
        let x2 := ext.blockFwds.foldl (fun x f => f x cos sin mask input_pos) x1
        let x3 := ext.lnf x2
        if 0 < lm_head_chunk_size then
          .ok (.chunks ((tsplit lm_head_chunk_size x3).map (fun xi => xi.map (llApply g.lm_head))))
        else
          let y := x3.map (llApply g.lm_head)
          match g.config.final_logit_softcapping with
          | some cap => .ok (.single (softcapT ext.tanh cap y))
          | none => .ok (.single y)
    match input_pos with
    | some ip =>
      match g.mask_cache with
      | none => .error .typeError
      | some mc => step (rowSelect ext.cos ip) (rowSelect ext.sin ip) (some (indexSelect 2 mc ip))
    | none => step (ext.cos.take T) (ext.sin.take T) none

/-- Concatenate a forward result along the position dimension: the chunked
output is joined back into a single tensor. -/
def joinOut : FwdOut → HState
  | .single x => x
  | .chunks xs => xs.flatten

/-- A checkpoint state dict: insertion-ordered keyed tensors (Python
`dict`). -/
abbrev StateDict := List (String × STensor)

/-- Dictionary lookup `sd[k]` / membership `k in sd`. -/
def sdGet : StateDict → String → Option STensor
  | [], _ => none
  | (k, v) :: rest, key => if k == key then some v else sdGet rest key

/-- Dictionary removal `sd.pop(k)` (the removed value is read through
`sdGet` beforehand). -/
def sdErase : StateDict → String → StateDict
  | [], _ => []
  | (k, v) :: rest, key => if k == key then sdErase rest key else (k, v) :: sdErase rest key

/-- Dictionary assignment `sd[k] = v`: overwrites in place when the key is
present, appends otherwise. -/
def sdSet (sd : StateDict) (key : String) (v : STensor) : StateDict :=
  if (sdGet sd key).isSome then
    sd.map (fun kv => if kv.1 == key then (key, v) else kv)
  else
    sd ++ [(key, v)]

/-- Modelled from the spec: `map_old_state_dict_weights` (from
`litgpt.utils`, outside this slice) performs the "checkpoint key remapping
for backward compatibility with differently-named frozen-model
checkpoints": for each mapping entry `(old, new)`, when `pfx ++ old` is
present its tensor is moved to key `pfx ++ new`. -/
def mapOldStateDictWeights (mapping : List (String × String)) (pfx : String)
    (sd : StateDict) : StateDict :=
  mapping.foldl
    (fun acc nm =>
      match sdGet acc (pfx ++ nm.1) with
      | some v => sdSet (sdErase acc (pfx ++ nm.1)) (pfx ++ nm.2) v
      | none => acc)
    sd

/-- `t.size(i)`. -/
def sizeAt (t : STensor) (i : Nat) : Nat :=
  t.shape.getD i 0

/-- `t.permute(0, 2, 1, 3)` on a four-dimensional tensor: dimensions 1 and
2 are exchanged, with the flat data re-gathered accordingly (tensors of
other ranks are untouched; the source only applies this to the
four-dimensional `gating_factor`). -/
def permute0213 (t : STensor) : STensor :=
  match t.shape with
  | [a, b, c, d] =>
    { shape := [a, c, b, d]
      data :=
        (List.range a).flatMap (fun i =>
          (List.range c).flatMap (fun k =>
            (List.range b).flatMap (fun j =>
              (List.range d).map (fun l =>
                t.data.getD (((i * b + j) * c + k) * d + l) 0)))) }
  | _ => t

/-- The key mapping of `GPT._load_from_state_dict`. -/
def gptMapping : List (String × String) :=
  [("lm_head.weight", "lm_head.linear.weight"), ("lm_head.bias", "lm_head.linear.bias")]

/-- `GPT._load_from_state_dict`, key-remapping part: route the base
checkpoint's `lm_head` tensors into the wrapped linear. -/
def gptLoadRemap (pfx : String) (sd : StateDict) : StateDict :=
  mapOldStateDictWeights gptMapping pfx sd

/-- The key mapping of `CausalSelfAttention._load_from_state_dict`. -/
def attnMapping : List (String × String) :=
  [("qkv.weight", "qkv.linear.weight"), ("qkv.bias", "qkv.linear.bias"),
   ("proj.weight", "proj.linear.weight"), ("proj.bias", "proj.linear.bias")]

/-- One legacy-key conversion step of
`CausalSelfAttention._load_from_state_dict`: when the fused
`attn.linear.<attr>` tensor is present it is popped and re-stored under
`qkv.linear.<attr>` after `qkv_reassemble` (the reassembly function lives
in `litgpt.scripts.convert_hf_checkpoint`, outside this slice, and is
passed in abstractly). -/
def attnLegacyStep (reassemble : STensor → STensor) (pfx attr : String)
    (sd : StateDict) : StateDict :=
  match sdGet sd (pfx ++ "attn.linear." ++ attr) with
  | some v => sdSet (sdErase sd (pfx ++ "attn.linear." ++ attr)) (pfx ++ "qkv.linear." ++ attr) (reassemble v)
  | none => sd

/-- `CausalSelfAttention._load_from_state_dict`, key-remapping part:
the base-name mapping, the older-layout `gating_factor` permutation
(applied when the loaded tensor has size `n_head` at dimension 1), and
the legacy fused `attn.linear.{weight,bias}` conversion. -/
def attnLoadRemap (reassemble : STensor → STensor) (n_head : Nat) (pfx : String)
    (sd : StateDict) : StateDict :=
  let sd1 := mapOldStateDictWeights attnMapping pfx sd
  let sd2 :=
    match sdGet sd1 (pfx ++ "gating_factor") with
    | some t => if sizeAt t 1 == n_head then sdSet sd1 (pfx ++ "gating_factor") (permute0213 t) else sd1
    | none => sd1
  attnLegacyStep reassemble pfx "bias" (attnLegacyStep reassemble pfx "weight" sd2)

/-- The key mapping of `GptNeoxMLP._load_from_state_dict`. -/
def gptNeoxMapping : List (String × String) :=
  [("fc.weight", "fc.linear.weight"), ("fc.bias", "fc.linear.bias"),
   ("proj.weight", "proj.linear.weight"), ("proj.bias", "proj.linear.bias")]

/-- `GptNeoxMLP._load_from_state_dict`, key-remapping part. -/
def gptNeoxLoadRemap (pfx : String) (sd : StateDict) : StateDict :=
  mapOldStateDictWeights gptNeoxMapping pfx sd

/-- The key mapping of `LLaMAMLP._load_from_state_dict`. -/
def llamaMLPMapping : List (String × String) :=
  [("fc_1.weight", "fc_1.linear.weight"), ("fc_1.bias", "fc_1.linear.bias"),
   ("fc_2.weight", "fc_2.linear.weight"), ("fc_2.bias", "fc_2.linear.bias"),
   ("proj.weight", "proj.linear.weight"), ("proj.bias", "proj.linear.bias")]

/-- `LLaMAMLP._load_from_state_dict`, key-remapping part. -/
def llamaMLPLoadRemap (pfx : String) (sd : StateDict) : StateDict :=
  mapOldStateDictWeights llamaMLPMapping pfx sd

/-- The key mapping of `LLaMAMoE._load_from_state_dict`. -/
def moeMapping : List (String × String) :=
  [("gate.weight", "gate.linear.weight")]

/-- `LLaMAMoE._load_from_state_dict`, key-remapping part. -/
def moeLoadRemap (pfx : String) (sd : StateDict) : StateDict :=
  mapOldStateDictWeights moeMapping pfx sd

/-! ### Helper lemmas -/

theorem zipWith_replicate_one_mul : ∀ (l : List ℚ) (n : Nat), l.length ≤ n →
    List.zipWith (· * ·) (List.replicate n (1 : ℚ)) l = l
  | [], _, _ => by simp
  | _ :: _, 0, h => by simp at h
  | a :: l, n + 1, h => by
    simp only [List.replicate_succ, List.zipWith_cons_cons, one_mul]
    rw [zipWith_replicate_one_mul l n (by simpa using h)]

theorem zipWith_add_replicate_zero : ∀ (l : List ℚ) (n : Nat), l.length ≤ n →
    List.zipWith (· + ·) l (List.replicate n (0 : ℚ)) = l
  | [], _, _ => by simp
  | _ :: _, 0, h => by simp at h
  | a :: l, n + 1, h => by
    simp only [List.replicate_succ, List.zipWith_cons_cons, add_zero]
    rw [zipWith_add_replicate_zero l n (by simpa using h)]

theorem beginsWith_iff : ∀ (s t : List Char), beginsWith s t = true ↔ ∃ r, s = t ++ r
  | _, [] => by simp [beginsWith]
  | [], _ :: _ => by simp [beginsWith]
  | c :: s, d :: t => by
    simp only [beginsWith, Bool.and_eq_true, beq_iff_eq, beginsWith_iff s t,
      List.cons_append, List.cons.injEq]
    constructor
    · rintro ⟨rfl, r, rfl⟩
      exact ⟨r, rfl, rfl⟩
    · rintro ⟨r, rfl, rfl⟩
      exact ⟨rfl, r, rfl⟩

theorem containsSeq_iff : ∀ (s t : List Char), containsSeq s t = true ↔ ∃ u v, s = u ++ t ++ v
  | [], t => by
    cases t <;> simp [containsSeq]
  | c :: s, t => by
    simp only [containsSeq, Bool.or_eq_true, beginsWith_iff, containsSeq_iff s t]
    constructor
    · rintro (⟨r, h⟩ | ⟨u, v, rfl⟩)
      · exact ⟨[], r, by simpa using h⟩
      · exact ⟨c :: u, v, by simp⟩
    · rintro ⟨u, v, h⟩
      cases u with
      | nil => exact Or.inl ⟨v, by simpa using h⟩
      | cons a u =>
        simp only [List.cons_append, List.cons.injEq] at h
        exact Or.inr ⟨u, v, h.2⟩

/-! ### Shared concrete sample objects (used by witnesses) -/

/-- A concrete stand-in for the framework's random linear initialiser. -/
def linInit0 : Nat → Nat → Bool → LinearT :=
  fun i o b =>
    { in_features := i
      out_features := o
      weight := List.replicate o (List.replicate i 1)
      biasv := if b then some (List.replicate o 1) else none }

/-- A concrete `AdapterV2Linear` with non-trivial adapter parameters. -/
def sampleMod : AdapterV2Linear :=
  { linear := { in_features := 2, out_features := 2, weight := [[1, 2], [3, 4]], biasv := some [5, 6] }
    adapter_bias := { shape := [2], data := [7, 8], requires_grad := false }
    adapter_scale := { shape := [2], data := [9, 10], requires_grad := false } }

/-- A concrete named-parameter list with one backbone and one adapter
parameter. -/
def sampleParams : List (String × PTensor) :=
  [("transformer.wte.weight", { shape := [1], data := [0], requires_grad := true }),
   ("lm_head.adapter_scale", { shape := [1], data := [0], requires_grad := false })]

/-- A small concrete configuration. -/
def cfg0 : Config :=
  { padded_vocab_size := some 3
    n_embd := 1
    n_layer := 2
    n_head := 2
    n_query_groups := 1
    head_size := 1
    block_size := 4
    intermediate_size := 1
    n_expert := 1
    adapter_start_layer := 1
    adapter_prompt_length := 2
    bias := true
    attn_bias := false
    lm_head_bias := false
    shared_attention_norm := false
    parallel_residual := true
    post_attention_norm := false
    post_mlp_norm := false
    scale_embeddings := false
    norm_eps := 1 / 100000
    sliding_window_size := none
    sliding_window_layer_stride := 1
    final_logit_softcapping := none
    mlp_class_name := .llamaMLPName }

/-- The adapter attributes the sample configuration produces at layers at
or above `adapter_start_layer`. -/
def adapterAttrs0 : AdapterAttrs :=
  { adapter_wte := { num_embeddings := 2, embedding_dim := 1 }
    gating_factor := ptZeros [1, 1, 2, 1] true
    adapter_kv_cache := none }

/-! ### Claims -/

/-- C1: `AdapterV2Linear.forward(x)` applies, per output feature `i`, the
trainable scale and bias to the wrapped linear projection's output:
entry `i` equals `adapter_scale[i] * (linear(x)[i] + adapter_bias[i])`,
the bias being added before the scale is applied. -/
theorem c1_forward_scale_bias (m : AdapterV2Linear) (x : List ℚ) (i : Nat)
    (hi : i < (adapterV2Forward m x).length) :
    (adapterV2Forward m x).getD i 0 =
      m.adapter_scale.data.getD i 0 *
        ((linearForward m.linear x).getD i 0 + m.adapter_bias.data.getD i 0) := by
  have hlen := hi
  simp only [adapterV2Forward, List.length_zipWith, lt_min_iff] at hlen
  obtain ⟨hs, hl, hb⟩ := hlen
  simp [adapterV2Forward, List.getD_eq_getElem?_getD, List.getElem?_zipWith,
    List.getElem?_eq_getElem hs, List.getElem?_eq_getElem hl, List.getElem?_eq_getElem hb]

/-- Witness for C1 on a concrete module and input. -/
theorem c1_witness :
    0 < (adapterV2Forward sampleMod [1, 1]).length ∧
      (adapterV2Forward sampleMod [1, 1]).getD 0 0 =
        sampleMod.adapter_scale.data.getD 0 0 *
          ((linearForward sampleMod.linear [1, 1]).getD 0 0 +
            sampleMod.adapter_bias.data.getD 0 0) :=
  ⟨by decide, c1_forward_scale_bias sampleMod [1, 1] 0 (by decide)⟩

/-- C2: after `mark_only_adapter_v2_as_trainable`, a parameter requires
gradient exactly when its name contains one of the `adapter_filter`
substrings (`adapter_wte`, `gating_factor`, `adapter_scale`,
`adapter_bias`, `norm_1`, `norm_2`, `ln_f`); every other parameter is
frozen. -/
theorem c2_mark_trainable_iff (ps : List (String × PTensor)) (n : String) (p : PTensor)
    (h : (n, p) ∈ mark_only_adapter_v2_as_trainable ps) :
    p.requires_grad = true ↔ ∃ s ∈ adapterSubstrings, ∃ u v, n.data = u ++ s.data ++ v := by
  obtain ⟨⟨n0, p0⟩, _, he⟩ := List.mem_map.mp h
  injection he with hn hp
  subst hn
  subst hp
  show adapter_filter n0 p0 = true ↔ _
  rw [adapter_filter, List.any_eq_true]
  constructor
  · rintro ⟨s, hs, hc⟩
    exact ⟨s, hs, (containsSeq_iff n0.data s.data).mp hc⟩
  · rintro ⟨s, hs, hc⟩
    exact ⟨s, hs, (containsSeq_iff n0.data s.data).mpr hc⟩

/-- Witness for C2: in a concrete marked model, the backbone embedding is
frozen and the adapter scale is trainable. -/
theorem c2_witness :
    (("lm_head.adapter_scale", ({ shape := [1], data := [0], requires_grad := true } : PTensor)) ∈
        mark_only_adapter_v2_as_trainable sampleParams) ∧
      (({ shape := [1], data := [0], requires_grad := true } : PTensor).requires_grad = true ↔
        ∃ s ∈ adapterSubstrings, ∃ u v, ("lm_head.adapter_scale" : String).data = u ++ s.data ++ v) :=
  ⟨by decide,
    c2_mark_trainable_iff sampleParams "lm_head.adapter_scale" _ (by decide)⟩

/-- Counterexample to C6 as stated: a freshly constructed
`AdapterV2Linear` has `requires_grad = False` on both `adapter_scale` and
`adapter_bias` — they are created frozen, not trainable. -/
theorem c6_counterexample :
    (mkAdapterV2Linear 2 3 true linInit0).adapter_scale.requires_grad = false ∧
      (mkAdapterV2Linear 2 3 true linInit0).adapter_bias.requires_grad = false := by
  decide

/-- C6 (amended): a freshly constructed `AdapterV2Linear` has
`adapter_scale` and `adapter_bias` with `requires_grad = False`; they are
made trainable by `mark_only_adapter_v2_as_trainable`, whose filter
matches every parameter name containing `adapter_scale` or
`adapter_bias`. -/
theorem c6_amended_constructed_frozen (inF outF : Nat) (bias : Bool)
    (linInit : Nat → Nat → Bool → LinearT) :
    (mkAdapterV2Linear inF outF bias linInit).adapter_scale.requires_grad = false ∧
      (mkAdapterV2Linear inF outF bias linInit).adapter_bias.requires_grad = false ∧
      (∀ ps (n : String) (p : PTensor), (n, p) ∈ mark_only_adapter_v2_as_trainable ps →
        (containsSeq n.data ("adapter_scale" : String).data ||
          containsSeq n.data ("adapter_bias" : String).data) = true →
        p.requires_grad = true) := by
  refine ⟨rfl, rfl, ?_⟩
  intro ps n p h hc
  obtain ⟨⟨n0, p0⟩, _, he⟩ := List.mem_map.mp h
  injection he with hn hp
  subst hn
  subst hp
  show adapter_filter n0 p0 = true
  rw [adapter_filter, List.any_eq_true]
  rcases Bool.or_eq_true_iff.mp hc with hc | hc
  · exact ⟨"adapter_scale", by simp [adapterSubstrings], hc⟩
  · exact ⟨"adapter_bias", by simp [adapterSubstrings], hc⟩

/-- Witness for the amended C6 on a concrete construction and marking. -/
theorem c6_witness :
    (mkAdapterV2Linear 1 2 false linInit0).adapter_scale.requires_grad = false ∧
      (mkAdapterV2Linear 1 2 false linInit0).adapter_bias.requires_grad = false ∧
      ((("lm_head.adapter_scale", ({ shape := [1], data := [0], requires_grad := true } : PTensor)) ∈
          mark_only_adapter_v2_as_trainable sampleParams) ∧
        ({ shape := [1], data := [0], requires_grad := true } : PTensor).requires_grad = true) :=
  ⟨(c6_amended_constructed_frozen 1 2 false linInit0).1,
    (c6_amended_constructed_frozen 1 2 false linInit0).2.1,
    by decide,
    (c6_amended_constructed_frozen 1 2 false linInit0).2.2 sampleParams
      "lm_head.adapter_scale" _ (by decide) (by decide)⟩

/-- C8: at construction (zero bias, unit scale) and again after
`reset_parameters`, `AdapterV2Linear` is an identity wrapper around its
linear layer, and `reset_parameters` is idempotent. -/
theorem c8_identity_wrapper (inF outF : Nat) (bias : Bool)
    (linInit : Nat → Nat → Bool → LinearT) (x : List ℚ) (m : AdapterV2Linear) :
    ((linearForward (linInit inF outF bias) x).length = outF →
      adapterV2Forward (mkAdapterV2Linear inF outF bias linInit) x =
        linearForward (linInit inF outF bias) x) ∧
      resetParameters (resetParameters m) = resetParameters m ∧
      ((linearForward m.linear x).length ≤ m.adapter_bias.data.length →
        (linearForward m.linear x).length ≤ m.adapter_scale.data.length →
        adapterV2Forward (resetParameters m) x = linearForward m.linear x) := by
  refine ⟨?_, ?_, ?_⟩
  · intro h
    simp only [adapterV2Forward, mkAdapterV2Linear, ptZeros, ptOnes, List.prod_cons,
      List.prod_nil, mul_one]
    rw [zipWith_add_replicate_zero _ _ (le_of_eq h),
      zipWith_replicate_one_mul _ _ (le_of_eq h)]
  · simp [resetParameters]
  · intro hb hs
    simp only [adapterV2Forward, resetParameters]
    rw [zipWith_add_replicate_zero _ _ hb,
      zipWith_replicate_one_mul _ _ hs]

/-- Witness for C8 on a concrete module and input. -/
theorem c8_witness :
    ((linearForward (linInit0 1 2 true) [3]).length = 2 ∧
      adapterV2Forward (mkAdapterV2Linear 1 2 true linInit0) [3] =
        linearForward (linInit0 1 2 true) [3]) ∧
      resetParameters (resetParameters sampleMod) = resetParameters sampleMod ∧
      ((linearForward sampleMod.linear [3, 4]).length ≤ sampleMod.adapter_bias.data.length ∧
        (linearForward sampleMod.linear [3, 4]).length ≤ sampleMod.adapter_scale.data.length ∧
        adapterV2Forward (resetParameters sampleMod) [3, 4] =
          linearForward sampleMod.linear [3, 4]) :=
  ⟨⟨by decide, (c8_identity_wrapper 1 2 true linInit0 [3] sampleMod).1 (by decide)⟩,
    (c8_identity_wrapper 1 2 true linInit0 [3] sampleMod).2.1,
    by decide, by decide,
    (c8_identity_wrapper 1 2 true linInit0 [3, 4] sampleMod).2.2 (by decide) (by decide)⟩

theorem mapM_ok_mem {ε α β : Type} (f : α → Except ε β) :
    ∀ (l : List α) (bs : List β), l.mapM f = Except.ok bs → ∀ b ∈ bs, ∃ i ∈ l, f i = Except.ok b := by
  intro l
  induction l with
  | nil =>
    intro bs h b hb
    replace h : (Except.ok [] : Except ε (List β)) = Except.ok bs := h
    injection h with h
    subst h
    simp at hb
  | cons a tl ih =>
    intro bs h b hb
    rw [List.mapM_cons] at h
    cases hfa : f a with
    | error e =>
      rw [hfa] at h
      replace h : (Except.error e : Except ε (List β)) = Except.ok bs := h
      injection h
    | ok x =>
      rw [hfa] at h
      replace h : (tl.mapM f >>= fun xs => pure (x :: xs)) = Except.ok bs := h
      cases htl : tl.mapM f with
      | error e =>
        rw [htl] at h
        replace h : (Except.error e : Except ε (List β)) = Except.ok bs := h
        injection h
      | ok xs =>
        rw [htl] at h
        replace h : (Except.ok (x :: xs) : Except ε (List β)) = Except.ok bs := h
        injection h with h
        subst h
        rcases List.mem_cons.mp hb with rfl | hb2
        · exact ⟨a, List.mem_cons_self a tl, hfa⟩
        · obtain ⟨i, hi, hfi⟩ := ih xs htl b hb2
          exact ⟨i, List.mem_cons_of_mem a hi, hfi⟩

theorem mlpSlots_mkMLP (cfg : Config) (linInit : Nat → Nat → Bool → LinearT)
    (l : LinearLike) (hl : l ∈ mlpSlots (mkMLP cfg linInit)) : isAdapterV2 l = true := by
  cases hmc : cfg.mlp_class_name with
  | gptNeoxMLPName =>
    simp only [mkMLP, hmc, mlpSlots, List.mem_cons, List.mem_singleton] at hl
    rcases hl with rfl | rfl | h
    · rfl
    · rfl
    · simp at h
  | llamaMLPName =>
    simp only [mkMLP, hmc, mlpSlots, mkLLaMAMLPFields, List.mem_cons, List.mem_singleton] at hl
    rcases hl with rfl | rfl | rfl | h
    · rfl
    · rfl
    · rfl
    · simp at h
  | gemmaMLPName =>
    simp only [mkMLP, hmc, mlpSlots, mkLLaMAMLPFields, List.mem_cons, List.mem_singleton] at hl
    rcases hl with rfl | rfl | rfl | h
    · rfl
    · rfl
    · rfl
    · simp at h
  | llamaMoEName =>
    simp only [mkMLP, hmc, mlpSlots, List.mem_cons, List.mem_flatten, List.mem_map,
      List.mem_replicate] at hl
    rcases hl with rfl | ⟨sub, ⟨f, ⟨-, rfl⟩, rfl⟩, hsub⟩
    · rfl
    · simp only [mkLLaMAMLPFields, List.mem_cons, List.mem_singleton] at hsub
      rcases hsub with rfl | rfl | rfl | h
      · rfl
      · rfl
      · rfl
      · simp at h

theorem gptOkSlots_eq (cfg : Config) (linInit : Nat → Nat → Bool → LinearT)
    (pv : Nat) (blocks : List Block) (hpv : cfg.padded_vocab_size = some pv)
    (hbs : (List.range cfg.n_layer).mapM (fun i => mkBlock cfg i linInit) = Except.ok blocks) :
    gptOkSlots cfg linInit =
      LinearLike.adapterV2 (mkAdapterV2Linear cfg.n_embd pv cfg.lm_head_bias linInit) ::
        blocks.flatMap (fun b => [b.attn.qkv, b.attn.proj] ++ mlpSlots b.mlp) := by
  rw [gptOkSlots]
  simp only [mkGPT, hpv, hbs]
  rfl

/-- C3: the attention block receives the adapter prefix machinery — the
`adapter_wte` embedding of `adapter_prompt_length` rows of size `n_embd`,
the zero-initialised `gating_factor` of shape `(1, 1, n_head, 1)` and the
empty `adapter_kv_cache` slot — exactly when
`block_idx >= config.adapter_start_layer`. -/
theorem c3_adapter_prefix_iff (cfg : Config) (i : Nat)
    (linInit : Nat → Nat → Bool → LinearT) :
    ((mkCausalSelfAttention cfg i linInit).adapter.isSome ↔ cfg.adapter_start_layer ≤ i) ∧
      (∀ a, (mkCausalSelfAttention cfg i linInit).adapter = some a →
        a.adapter_wte = { num_embeddings := cfg.adapter_prompt_length, embedding_dim := cfg.n_embd } ∧
          a.gating_factor.shape = [1, 1, cfg.n_head, 1] ∧
          a.gating_factor.data = List.replicate cfg.n_head 0 ∧
          a.gating_factor.requires_grad = true ∧
          a.adapter_kv_cache = none) := by
  constructor
  · by_cases hle : cfg.adapter_start_layer ≤ i
    · simp [mkCausalSelfAttention, hle]
    · simp [mkCausalSelfAttention, hle]
  · intro a ha
    by_cases hle : cfg.adapter_start_layer ≤ i
    · simp only [mkCausalSelfAttention, if_pos hle] at ha
      obtain rfl := Option.some.inj ha
      refine ⟨rfl, rfl, ?_, rfl, rfl⟩
      simp [ptZeros]
    · simp [mkCausalSelfAttention, hle] at ha

/-- Witness for C3 at a concrete configuration: layer 1 (at the start
layer) has the adapter attributes, layer 0 does not. -/
theorem c3_witness :
    (((mkCausalSelfAttention cfg0 1 linInit0).adapter.isSome ↔ cfg0.adapter_start_layer ≤ 1) ∧
      ((mkCausalSelfAttention cfg0 1 linInit0).adapter = some adapterAttrs0 ∧
        (adapterAttrs0.adapter_wte =
            { num_embeddings := cfg0.adapter_prompt_length, embedding_dim := cfg0.n_embd } ∧
          adapterAttrs0.gating_factor.shape = [1, 1, cfg0.n_head, 1] ∧
          adapterAttrs0.gating_factor.data = List.replicate cfg0.n_head 0 ∧
          adapterAttrs0.gating_factor.requires_grad = true ∧
          adapterAttrs0.adapter_kv_cache = none))) ∧
      (mkCausalSelfAttention cfg0 0 linInit0).adapter = none :=
  ⟨⟨(c3_adapter_prefix_iff cfg0 1 linInit0).1,
      by decide,
      (c3_adapter_prefix_iff cfg0 1 linInit0).2 adapterAttrs0 (by decide)⟩,
    by decide⟩

/-- C4: in every successfully constructed GPT model, every
linear-projection slot — `lm_head`, each block's `qkv` and `proj`, and
every MLP projection including the MoE gate and experts — carries the
`AdapterV2Linear` wrapper; none is a bare `torch.nn.Linear`. -/
theorem c4_every_projection_wrapped (cfg : Config)
    (linInit : Nat → Nat → Bool → LinearT) (l : LinearLike)
    (hl : l ∈ gptOkSlots cfg linInit) : isAdapterV2 l = true := by
  cases hpv : cfg.padded_vocab_size with
  | none =>
    rw [gptOkSlots, mkGPT, hpv] at hl
    simp at hl
  | some pv =>
    cases hbs : (List.range cfg.n_layer).mapM (fun i => mkBlock cfg i linInit) with
    | error e =>
      rw [gptOkSlots, mkGPT, hpv] at hl
      rw [hbs] at hl
      replace hl : l ∈ ([] : List LinearLike) := hl
      simp at hl
    | ok blocks =>
      rw [gptOkSlots_eq cfg linInit pv blocks hpv hbs] at hl
      rcases List.mem_cons.mp hl with rfl | hl2
      · rfl
      · obtain ⟨b, hb, hlb⟩ := List.mem_flatMap.mp hl2
        obtain ⟨i, -, hib⟩ := mapM_ok_mem _ _ _ hbs b hb
        rw [mkBlock] at hib
        by_cases hcfg : ¬cfg.parallel_residual ∧ cfg.shared_attention_norm
        · rw [if_pos hcfg] at hib
          injection hib
        · rw [if_neg hcfg] at hib
          injection hib with hib
          subst hib
          simp only [List.cons_append, List.nil_append, List.mem_cons] at hlb
          rcases hlb with rfl | rfl | hmlp
          · rfl
          · rfl
          · exact mlpSlots_mkMLP cfg linInit l hmlp

/-- Witness for C4 at a concrete configuration: the lm-head slot of the
constructed model is wrapped. -/
theorem c4_witness :
    ((LinearLike.adapterV2
          (mkAdapterV2Linear cfg0.n_embd 3 cfg0.lm_head_bias linInit0)) ∈
        gptOkSlots cfg0 linInit0) ∧
      isAdapterV2
          (LinearLike.adapterV2
            (mkAdapterV2Linear cfg0.n_embd 3 cfg0.lm_head_bias linInit0)) = true :=
  ⟨by decide,
    c4_every_projection_wrapped cfg0 linInit0 _ (by decide)⟩

theorem strAppendInj (q a b : String) (hc : q ++ a = q ++ b) : a = b := by
  apply String.ext
  have h2 : q.data ++ a.data = q.data ++ b.data := by
    have := congrArg String.data hc
    simpa using this
  exact List.append_cancel_left h2

@[simp] theorem appendBeqAppend (p a b : String) : (p ++ a == p ++ b) = (a == b) := by
  cases hab : a == b with
  | false =>
    rw [beq_eq_false_iff_ne] at hab
    rw [beq_eq_false_iff_ne]
    exact fun hc => hab (strAppendInj p a b hc)
  | true =>
    have hab2 : a = b := by simpa using hab
    subst hab2
    simp

@[simp] theorem appendEqAppend (p a b : String) : p ++ a = p ++ b ↔ a = b :=
  ⟨strAppendInj p a b, fun h => by rw [h]⟩

theorem map_getD_range (d : List ℚ) :
    (List.range d.length).map (fun j => d.getD j 0) = d := by
  apply List.ext_getElem
  · simp
  · intro i h1 h2
    simp [List.getD_eq_getElem?_getD, List.getElem?_eq_getElem h2]

theorem flatMap_map_singleton {α β : Type} (l : List α) (f : α → β) :
    l.flatMap (fun x => [f x]) = l.map f := by
  induction l with
  | nil => rfl
  | cons a t ih => simp [ih]

theorem permute0213_old_layout (n : Nat) (d : List ℚ) (hd : d.length = n) :
    permute0213 { shape := [1, n, 1, 1], data := d } = { shape := [1, 1, n, 1], data := d } := by
  simp only [permute0213, show List.range 1 = [0] from rfl, List.flatMap_cons,
    List.flatMap_nil, List.map_cons, List.map_nil, List.append_nil]
  refine congrArg _ ?_
  have h2 : ∀ j : Nat, ((0 * n + j) * 1 + 0) * 1 + 0 = j := by intro j; ring
  simp only [h2, flatMap_map_singleton]
  rw [← hd]
  exact map_getD_range d

/-- C5: the checkpoint key remapping loads differently-named frozen-model
checkpoints equivalently: old base-model keys (`lm_head.*`, `qkv.*`,
`proj.*`, `fc*.*`, `gate.weight`) are routed to the corresponding
`.linear.` keys of the wrapped modules, already-new-named keys are left
in place, and the legacy fused `attn.linear.{weight,bias}` tensor is
converted into `qkv.linear.{weight,bias}` through `qkv_reassemble`. -/
theorem c5_checkpoint_remap_equivalence (pfx : String) (reassemble : STensor → STensor)
    (n_head : Nat) (w b wq bq wp bp w1 b1 w2 b2 wg : STensor) :
    gptLoadRemap pfx [(pfx ++ "lm_head.weight", w), (pfx ++ "lm_head.bias", b)] =
        [(pfx ++ "lm_head.linear.weight", w), (pfx ++ "lm_head.linear.bias", b)] ∧
      gptLoadRemap pfx [(pfx ++ "lm_head.linear.weight", w), (pfx ++ "lm_head.linear.bias", b)] =
        [(pfx ++ "lm_head.linear.weight", w), (pfx ++ "lm_head.linear.bias", b)] ∧
      attnLoadRemap reassemble n_head pfx
          [(pfx ++ "qkv.weight", wq), (pfx ++ "qkv.bias", bq),
           (pfx ++ "proj.weight", wp), (pfx ++ "proj.bias", bp)] =
        [(pfx ++ "qkv.linear.weight", wq), (pfx ++ "qkv.linear.bias", bq),
         (pfx ++ "proj.linear.weight", wp), (pfx ++ "proj.linear.bias", bp)] ∧
      attnLoadRemap reassemble n_head pfx
          [(pfx ++ "attn.linear.weight", w), (pfx ++ "attn.linear.bias", b)] =
        [(pfx ++ "qkv.linear.weight", reassemble w), (pfx ++ "qkv.linear.bias", reassemble b)] ∧
      gptNeoxLoadRemap pfx
          [(pfx ++ "fc.weight", w1), (pfx ++ "fc.bias", b1),
           (pfx ++ "proj.weight", wp), (pfx ++ "proj.bias", bp)] =
        [(pfx ++ "fc.linear.weight", w1), (pfx ++ "fc.linear.bias", b1),
         (pfx ++ "proj.linear.weight", wp), (pfx ++ "proj.linear.bias", bp)] ∧
      llamaMLPLoadRemap pfx
          [(pfx ++ "fc_1.weight", w1), (pfx ++ "fc_1.bias", b1),
           (pfx ++ "fc_2.weight", w2), (pfx ++ "fc_2.bias", b2),
           (pfx ++ "proj.weight", wp), (pfx ++ "proj.bias", bp)] =
        [(pfx ++ "fc_1.linear.weight", w1), (pfx ++ "fc_1.linear.bias", b1),
         (pfx ++ "fc_2.linear.weight", w2), (pfx ++ "fc_2.linear.bias", b2),
         (pfx ++ "proj.linear.weight", wp), (pfx ++ "proj.linear.bias", bp)] ∧
      moeLoadRemap pfx [(pfx ++ "gate.weight", wg)] = [(pfx ++ "gate.linear.weight", wg)] := by
  refine ⟨?_, ?_, ?_, ?_, ?_, ?_, ?_⟩
  · simp [gptLoadRemap, mapOldStateDictWeights, gptMapping, sdGet, sdSet, sdErase]
  · simp [gptLoadRemap, mapOldStateDictWeights, gptMapping, sdGet, sdSet, sdErase]
  · simp [attnLoadRemap, mapOldStateDictWeights, attnMapping, attnLegacyStep,
      sdGet, sdSet, sdErase, sizeAt, String.append_assoc,
      show ("attn.linear." ++ "weight" : String) = "attn.linear.weight" from rfl,
      show ("attn.linear." ++ "bias" : String) = "attn.linear.bias" from rfl,
      show ("qkv.linear." ++ "weight" : String) = "qkv.linear.weight" from rfl,
      show ("qkv.linear." ++ "bias" : String) = "qkv.linear.bias" from rfl]
  · simp [attnLoadRemap, mapOldStateDictWeights, attnMapping, attnLegacyStep,
      sdGet, sdSet, sdErase, sizeAt, String.append_assoc,
      show ("attn.linear." ++ "weight" : String) = "attn.linear.weight" from rfl,
      show ("attn.linear." ++ "bias" : String) = "attn.linear.bias" from rfl,
      show ("qkv.linear." ++ "weight" : String) = "qkv.linear.weight" from rfl,
      show ("qkv.linear." ++ "bias" : String) = "qkv.linear.bias" from rfl]
  · simp [gptNeoxLoadRemap, mapOldStateDictWeights, gptNeoxMapping, sdGet, sdSet, sdErase]
  · simp [llamaMLPLoadRemap, mapOldStateDictWeights, llamaMLPMapping, sdGet, sdSet, sdErase]
  · simp [moeLoadRemap, mapOldStateDictWeights, moeMapping, sdGet, sdSet, sdErase]

/-- C7: loading an older-layout `gating_factor` of shape
`(1, n_head, 1, 1)` permutes it (dims `(0, 2, 1, 3)`) into the current
layout `(1, 1, n_head, 1)` with the data preserved, while a tensor already
in the current layout (size 1 at dimension 1, for `n_head > 1`) is left
unpermuted. -/
theorem c7_gating_factor_compat (pfx : String) (reassemble : STensor → STensor)
    (n_head : Nat) (d d2 : List ℚ) (hd : d.length = n_head) :
    attnLoadRemap reassemble n_head pfx
        [(pfx ++ "gating_factor", { shape := [1, n_head, 1, 1], data := d })] =
      [(pfx ++ "gating_factor", { shape := [1, 1, n_head, 1], data := d })] ∧
    (n_head ≠ 1 →
      attnLoadRemap reassemble n_head pfx
          [(pfx ++ "gating_factor", { shape := [1, 1, n_head, 1], data := d2 })] =
        [(pfx ++ "gating_factor", { shape := [1, 1, n_head, 1], data := d2 })]) := by
  constructor
  · simp [attnLoadRemap, mapOldStateDictWeights, attnMapping, attnLegacyStep,
      sdGet, sdSet, sdErase, sizeAt, permute0213_old_layout n_head d hd,
      String.append_assoc,
      show ("attn.linear." ++ "weight" : String) = "attn.linear.weight" from rfl,
      show ("attn.linear." ++ "bias" : String) = "attn.linear.bias" from rfl]
  · intro hn
    have hn2 : ¬(1 = n_head) := fun hc => hn hc.symm
    simp [attnLoadRemap, mapOldStateDictWeights, attnMapping, attnLegacyStep,
      sdGet, sdSet, sdErase, sizeAt, hn2, String.append_assoc,
      show ("attn.linear." ++ "weight" : String) = "attn.linear.weight" from rfl,
      show ("attn.linear." ++ "bias" : String) = "attn.linear.bias" from rfl]

/-- Witness for C7 with two heads: a concrete old-layout tensor is
permuted into the current layout, and a current-layout tensor is left
alone. -/
theorem c7_witness :
    ([(3 : ℚ), 4].length = 2 ∧
      attnLoadRemap id 2 "transformer.h.0.attn."
          [("transformer.h.0.attn." ++ "gating_factor", { shape := [1, 2, 1, 1], data := [3, 4] })] =
        [("transformer.h.0.attn." ++ "gating_factor", { shape := [1, 1, 2, 1], data := [3, 4] })]) ∧
      ((2 : Nat) ≠ 1 ∧
        attnLoadRemap id 2 "transformer.h.0.attn."
            [("transformer.h.0.attn." ++ "gating_factor", { shape := [1, 1, 2, 1], data := [5, 6] })] =
          [("transformer.h.0.attn." ++ "gating_factor", { shape := [1, 1, 2, 1], data := [5, 6] })]) :=
  ⟨⟨by decide,
      (c7_gating_factor_compat "transformer.h.0.attn." id 2 [3, 4] [5, 6] (by decide)).1⟩,
    by decide,
    (c7_gating_factor_compat "transformer.h.0.attn." id 2 [3, 4] [5, 6] (by decide)).2 (by decide)⟩

theorem tsplit_flatten {α : Type} (c : Nat) :
    ∀ (l : List α), (tsplit (c + 1) l).flatten = l := by
  have H : ∀ (n : Nat) (l : List α), l.length ≤ n → (tsplit (c + 1) l).flatten = l := by
    intro n
    induction n with
    | zero =>
      intro l hl
      have : l = [] := List.eq_nil_of_length_eq_zero (Nat.le_zero.mp hl)
      subst this
      simp [tsplit]
    | succ n ih =>
      intro l hl
      cases l with
      | nil => simp [tsplit]
      | cons x xs =>
        simp only [tsplit]
        rw [List.flatten_cons, ih ((x :: xs).drop (c + 1)) (by simp at hl ⊢; omega)]
        exact List.take_append_drop (c + 1) (x :: xs)
  exact fun l => H l.length l le_rfl

/-- A trivial concrete GPT (no blocks) used by concrete instances. -/
def gpt0 : GPT :=
  { config := cfg0
    lm_head := .adapterV2 (mkAdapterV2Linear 1 3 false linInit0)
    transformer := { wte := { num_embeddings := 3, embedding_dim := 1 }
                     h := []
                     ln_f := { dim := 1, eps := 1 / 100000 } }
    max_seq_length := 1
    mask_cache := none }

/-- Trivial concrete external semantics for `gpt0`. -/
def ext0 : ExternSems :=
  { cos := [[1], [1], [1], [1]]
    sin := [[0], [0], [0], [0]]
    embed := fun _ => [1]
    blockFwds := []
    lnf := id
    embedScale := 1
    tanh := id }

/-- C9: with `lm_head_chunk_size > 0`, `GPT.forward` returns per-chunk
logits whose concatenation along the position dimension equals the
un-chunked output when `final_logit_softcapping` is off; when softcapping
is configured the chunked path returns before the softcapping step, so the
un-chunked output is the softcap applied to the concatenation of the
chunks. -/
theorem c9_chunked_vs_single (g : GPT) (ext : ExternSems) (idx : List Nat)
    (ip : Option (List Nat)) (c : Nat) (hc : 0 < c) :
    (g.config.final_logit_softcapping = none →
      gptForward g ext idx ip 0 =
        (gptForward g ext idx ip c).map (fun o => FwdOut.single (joinOut o))) ∧
      (∀ cap, g.config.final_logit_softcapping = some cap →
        gptForward g ext idx ip 0 =
          (gptForward g ext idx ip c).map
            (fun o => FwdOut.single (softcapT ext.tanh cap (joinOut o)))) := by
  obtain ⟨c, rfl⟩ : ∃ k, c = k + 1 := ⟨c - 1, by omega⟩
  have key : ∀ (x3 : HState),
      ((tsplit (c + 1) x3).map (fun xi => xi.map (llApply g.lm_head))).flatten =
        x3.map (llApply g.lm_head) := by
    intro x3
    rw [← List.map_flatten, tsplit_flatten c x3]
  constructor
  · intro hcap
    by_cases hT : g.max_seq_length < idx.length
    · simp [gptForward, hT, Except.map]
    · cases ip with
      | none =>
        simp [gptForward, hT, hcap, joinOut, key, Except.map]
      | some ipv =>
        cases hmc : g.mask_cache with
        | none => simp [gptForward, hT, hmc, Except.map]
        | some mc => simp [gptForward, hT, hmc, hcap, joinOut, key, Except.map]
  · intro cap hcap
    by_cases hT : g.max_seq_length < idx.length
    · simp [gptForward, hT, Except.map]
    · cases ip with
      | none =>
        simp [gptForward, hT, hcap, joinOut, key, Except.map]
      | some ipv =>
        cases hmc : g.mask_cache with
        | none => simp [gptForward, hT, hmc, Except.map]
        | some mc => simp [gptForward, hT, hmc, hcap, joinOut, key, Except.map]

/-- Witness for C9 on a concrete model without softcapping. -/
theorem c9_witness :
    0 < 1 ∧ gpt0.config.final_logit_softcapping = none ∧
      gptForward gpt0 ext0 [0] none 0 =
        (gptForward gpt0 ext0 [0] none 1).map (fun o => FwdOut.single (joinOut o)) :=
  ⟨by decide, rfl, (c9_chunked_vs_single gpt0 ext0 [0] none 1 (by decide)).1 rfl⟩

/-- Counterexample to C10 as stated: with an over-long input, a provided
`input_pos` and `mask_cache = None`, the forward pass raises `ValueError`,
not `TypeError` — the "TypeError iff `mask_cache` is None" biconditional
fails because the length check runs first. -/
theorem c10_counterexample :
    gptForward gpt0 ext0 [0, 1] (some [0]) 0 = .error .valueError ∧
      gpt0.mask_cache = none ∧ (some [0] : Option (List Nat)).isSome = true := by
  refine ⟨rfl, rfl, rfl⟩

/-- C10 (amended): `GPT.forward` raises `ValueError` exactly when the
input length exceeds `max_seq_length`; it raises `TypeError` exactly when
the length check passes, `input_pos` is provided and `mask_cache` is
unset (the length check takes precedence); in every other case it
proceeds and returns a result.  The embedding is pure, so the model state
is untouched in the error cases. -/
theorem c10_error_conditions (g : GPT) (ext : ExternSems) (idx : List Nat)
    (ip : Option (List Nat)) (chunk : Nat) :
    (gptForward g ext idx ip chunk = .error .valueError ↔ g.max_seq_length < idx.length) ∧
      (gptForward g ext idx ip chunk = .error .typeError ↔
        (idx.length ≤ g.max_seq_length ∧ ip.isSome = true ∧ g.mask_cache = none)) ∧
      ((∃ o, gptForward g ext idx ip chunk = .ok o) ↔
        (idx.length ≤ g.max_seq_length ∧ ¬(ip.isSome = true ∧ g.mask_cache = none))) := by
  by_cases hT : g.max_seq_length < idx.length
  · refine ⟨by simp [gptForward, hT], by simp [gptForward, hT], by simp [gptForward, hT]⟩
  · have hT2 : idx.length ≤ g.max_seq_length := Nat.le_of_not_lt hT
    cases ip with
    | none =>
      by_cases h0 : 0 < chunk
      · simp [gptForward, hT, hT2, h0]
      · cases hcap : g.config.final_logit_softcapping with
        | none => simp [gptForward, hT, hT2, h0, hcap]
        | some cap => simp [gptForward, hT, hT2, h0, hcap]
    | some ipv =>
      cases hmc : g.mask_cache with
      | none => simp [gptForward, hT, hT2, hmc]
      | some mc =>
        by_cases h0 : 0 < chunk
        · simp [gptForward, hT, hT2, h0, hmc]
        · cases hcap : g.config.final_logit_softcapping with
          | none => simp [gptForward, hT, hT2, h0, hmc, hcap]
          | some cap => simp [gptForward, hT, hT2, h0, hmc, hcap]

end AdapterV2
